import Mathlib

/-!
# Verification of the pdf-test-generator terminal application

Shallow embedding, in Lean 4, of the parts of the Go repository
`pdf-test-generator` that the verified claims are about:

* the scoring and grading arithmetic (`calculateScore` in `tui/models.go`,
  `getGrade` in `tui/test_results.go`),
* the test-taking result flow (`saveTestResults`, `handleResultView`,
  `updateTestTaking` in `tui/test_taking.go`),
* the top-level event dispatch with the global escape pre-filter
  (`Update` in `tui/models.go`),
* the PDF-generation configure step (`toggleQuestionTypes`,
  `handlePDFInputMode`, `NewPDFProcessModel`),
* the custom-question save validation (`saveCurrentQuestion` in
  `tui/custom_question.go`),
* the text summary truncation (`GetTextSummary` in the pdf package),
* the question options JSON round trip (`CreateQuestion` / `GetQuestion`
  in the database package).

Modelling conventions:

* Go strings are modelled as `List Char` (`Str`).  All strings occurring in
  the theorems below are ASCII, where Go's byte-wise operations and the
  rune-wise model coincide.
* Go `map[int]string` is modelled as a function `Int → Option Str`.
* `float64` arithmetic (scores, grade thresholds) is modelled as exact
  rational arithmetic over `ℚ`.
* Database and clock effects are modelled by an explicit environment
  (`Env`) holding the outcome of the effectful calls, and by a list of
  persisted result records carried in the application state.
* Only key input events are modelled (`tea.KeyMsg`, identified by their
  `msg.String()` value); render (`view*`) functions are not modelled.
-/

/-- Go strings are modelled as lists of characters. -/
abbrev Str := List Char

/-- Characters with the Unicode `White_Space` property, as recognised by
Go's `unicode.IsSpace` (used by `strings.TrimSpace`). -/
def goIsSpace (c : Char) : Bool :=
  c.toNat = 0x09 ∨ c.toNat = 0x0A ∨ c.toNat = 0x0B ∨ c.toNat = 0x0C ∨
  c.toNat = 0x0D ∨ c.toNat = 0x20 ∨ c.toNat = 0x85 ∨ c.toNat = 0xA0 ∨
  c.toNat = 0x1680 ∨ (0x2000 ≤ c.toNat ∧ c.toNat ≤ 0x200A) ∨
  c.toNat = 0x2028 ∨ c.toNat = 0x2029 ∨ c.toNat = 0x202F ∨
  c.toNat = 0x205F ∨ c.toNat = 0x3000

/-- Model of Go `strings.TrimSpace`: drop leading and trailing
whitespace. -/
def goTrimSpace (s : Str) : Str :=
  ((s.dropWhile goIsSpace).reverse.dropWhile goIsSpace).reverse

/-- Model of Go `strings.ToLower`, character-wise.  All strings compared in
this development are ASCII, where `Char.toLower` agrees with Go's rune
lowering. -/
def goToLower (s : Str) : Str :=
  s.map Char.toLower

/-- Model of Go `strconv.Atoi` on a digit string (no sign): `none` models a
non-nil error.  The callers below pass small inputs, so 64-bit overflow,
which `strconv.Atoi` would report as an error, is not modelled. -/
def atoiDigits (s : Str) : Option Int :=
  if s = [] then none
  else if s.all (fun c => c.isDigit) then
    some (s.foldl (fun acc c => acc * 10 + ((c.toNat : Int) - 48)) 0)
  else none

/-- Model of Go `strconv.Atoi`: optional sign followed by digits. -/
def atoi (s : Str) : Option Int :=
  match s with
  | '+' :: rest => atoiDigits rest
  | '-' :: rest => (atoiDigits rest).map (fun n => -n)
  | _ => atoiDigits s

/-! ## Data model (`database` package)

`created_at` / `updated_at` timestamps are owned by the SQLite collaborator
and are not modelled. -/

/-- Go struct `database.Test` (`part_003`). -/
structure Test where
  ID : Int
  Name : Str
  Description : Str
deriving DecidableEq, Repr

/-- Go struct `database.Question` (`part_003`). -/
structure Question where
  ID : Int
  TestID : Int
  QuestionText : Str
  QuestionType : Str
  Options : List Str
  CorrectAnswer : Str
  Explanation : Str
deriving DecidableEq, Repr

/-- A row of the `test_results` table, as written by
`database.SaveTestResult` (`part_003`). -/
structure TestResultRec where
  TestID : Int
  Score : ℚ
  TotalQuestions : Nat
  CorrectAnswers : Nat
  TimeTaken : Int
deriving DecidableEq, Repr

/-- Go `map[int]string`, the `userAnswers` session map. -/
def AnswerMap := Int → Option Str

/-- Model of `make(map[int]string)`. -/
def AnswerMap.empty : AnswerMap := fun _ => none

/-- Map update `m[k] = v`. -/
def AnswerMap.insert (m : AnswerMap) (k : Int) (v : Str) : AnswerMap :=
  fun i => if i = k then some v else m i

/-! ## Scoring (`calculateScore`, `tui/models.go` lines 238-263) -/

/-- One iteration of the `calculateScore` loop body: a question counts as
correct when its id is present in the answer map and the stored correct
answer equals the user answer after `strings.ToLower(strings.TrimSpace(·))`
normalisation of both sides.  The comparison does not inspect the
question's type. -/
def answerCorrect (answers : AnswerMap) (q : Question) : Bool :=
  match answers q.ID with
  | none => false
  | some userAnswer =>
      goToLower (goTrimSpace q.CorrectAnswer) = goToLower (goTrimSpace userAnswer)

/-- The `correct` counter accumulated by the `calculateScore` loop. -/
def countCorrect (questions : List Question) (answers : AnswerMap) : Nat :=
  match questions with
  | [] => 0
  | q :: rest =>
      (if answerCorrect answers q then 1 else 0) + countCorrect rest answers

/-- Model of `(a *App) calculateScore` (`tui/models.go`): returns the number of
correct answers and the percentage score.  `float64` arithmetic is modelled
over `ℚ`. -/
def calculateScore (questions : List Question) (answers : AnswerMap) : Nat × ℚ :=
  let correct := countCorrect questions answers
  let total := questions.length
  let score : ℚ := if total > 0 then (correct : ℚ) / (total : ℚ) * 100 else 0
  (correct, score)

/-! ## Grading (`getGrade`, `tui/test_results.go` lines 304-318) -/

/-- Model of `(a *App) getGrade`: letter grade from a percentage score. -/
def getGrade (percentage : ℚ) : Str :=
  if percentage ≥ 90 then "A".toList
  else if percentage ≥ 80 then "B".toList
  else if percentage ≥ 70 then "C".toList
  else if percentage ≥ 60 then "D".toList
  else "F".toList

/-! ## View identifiers (`tui/models.go`) -/

/-- Go type `ViewType` (`tui/models.go`): the active screen. -/
inductive ViewType where
  | MainMenuView
  | PDFProcessView
  | CustomQuestionView
  | TestSelectionView
  | TestTakingView
  | TestResultsView
  | FileSelectionView
  | QuestionGenView
deriving DecidableEq, Repr

open ViewType

/-! ## Per-screen sub-models -/

/-- Go struct `MainMenuModel` (`part_001`).  The five menu choice labels are fixed;
only the cursor is mutable state (the `selected` map is never read). -/
structure MainMenuModel where
  cursor : Nat
deriving DecidableEq, Repr

/-- The fixed `choices` slice of `NewMainMenuModel` (`part_001`); only its
length matters for cursor clamping. -/
def mainMenuChoices : List Str :=
  ["Generate questions from PDF".toList, "Create custom questions".toList,
   "Take practice test".toList, "View saved tests".toList, "Exit".toList]

/-- The `questionTypes` map of `PDFProcessModel`: a `map[string]bool` with
the three fixed keys. -/
structure QuestionTypes where
  multiple_choice : Bool
  true_false : Bool
  short_answer : Bool
deriving DecidableEq, Repr

/-- Go struct `PDFProcessModel` (`part_001`). -/
structure PDFProcessModel where
  selectedFile : Str
  extractedText : Str
  step : Nat
  errorMsg : Str
  successMsg : Str
  loading : Bool
  numQuestions : Str
  questionTypes : QuestionTypes
  testName : Str
  testDesc : Str
  inputMode : Str
  input : Str
  cursor : Nat
deriving DecidableEq, Repr

/-- Model of `NewPDFProcessModel` (`part_001` lines 33-45): default configuration
with 5 questions and only `multiple_choice` enabled. -/
def NewPDFProcessModel : PDFProcessModel :=
  { selectedFile := [], extractedText := [], step := 0, errorMsg := [],
    successMsg := [], loading := false, numQuestions := "5".toList,
    questionTypes :=
      { multiple_choice := true, true_false := false, short_answer := false },
    testName := "Generated Test".toList,
    testDesc := "Test generated from PDF".toList,
    inputMode := [], input := [], cursor := 0 }

/-- Go struct `TestTakingModel` (`tui/test_taking.go`). -/
structure TestTakingModel where
  currentQuestion : Nat
  input : Str
  inputMode : Bool
  showResult : Bool
  resultMsg : Str
  cursor : Nat
  errorMsg : Str
  reviewMode : Bool
  reviewQuestion : Nat
deriving DecidableEq, Repr

/-- Model of `NewTestTakingModel` (`tui/test_taking.go`): the zero value. -/
def NewTestTakingModel : TestTakingModel :=
  { currentQuestion := 0, input := [], inputMode := false, showResult := false,
    resultMsg := [], cursor := 0, errorMsg := [], reviewMode := false,
    reviewQuestion := 0 }

/-- Go struct `QuestionData` (`tui/custom_question.go`): one saved in-session custom
question.  The Go field `Type` is rendered `Type'` (keyword clash). -/
structure QuestionData where
  Text : Str
  Type' : Str
  Options : List Str
  CorrectAnswer : Str
  Explanation : Str
deriving DecidableEq, Repr

/-- The in-progress `currentQuestion` buffer of `CustomQuestionModel`
(`tui/custom_question.go`). -/
structure CurrentQuestion where
  text : Str
  qType : Str
  options : List Str
  correctAnswer : Str
  explanation : Str
deriving DecidableEq, Repr

/-- The part of `CustomQuestionModel` (`tui/custom_question.go`) read or
written by `saveCurrentQuestion`. -/
structure CustomQuestionModel where
  questions : List QuestionData
  currentQuestion : CurrentQuestion
  errorMsg : Str
  successMsg : Str
  cursor : Nat
deriving DecidableEq, Repr

/-- Go struct `FileSelectionModel`, reduced to the `purpose` field set by the main
menu (`tui/file_selection.go`). -/
structure FileSelectionModel where
  purpose : Str
deriving DecidableEq, Repr

/-- Go struct `TestSelectionModel`, reduced to the `purpose` field set by the main
menu (`part_002`). -/
structure TestSelectionModel where
  purpose : Str
deriving DecidableEq, Repr

/-! ## Application state and effect environment -/

/-- Go struct `App` (`tui/models.go`): the shared session state, together with the
list of persisted `test_results` rows standing in for the SQLite database.
Sub-models of screens whose handlers are not embedded are omitted. -/
structure App where
  currentView : ViewType
  mainMenu : MainMenuModel
  pdfProcess : PDFProcessModel
  customQuestion : CustomQuestionModel
  testTaking : TestTakingModel
  fileSelection : FileSelectionModel
  testSelection : TestSelectionModel
  currentTest : Option Test
  currentQuestions : List Question
  userAnswers : AnswerMap
  db : List TestResultRec

/-- Outcome of the effectful collaborator calls made while handling one
event: whether `db.SaveTestResult` succeeds (and its error text when it
fails), and the elapsed whole seconds `int(time.Since(a.testStartTime).Seconds())`
sampled at that moment. -/
structure Env where
  saveOk : Bool
  saveErrMsg : Str
  timeTakenSeconds : Int

/-- Model of `a.currentTest.ID`.  Go would dereference a nil pointer when
`currentTest` is unset; every reachable state of the test-taking flow has
it set, and no theorem below exercises the `none` default. -/
def currentTestID (a : App) : Int :=
  match a.currentTest with
  | some t => t.ID
  | none => 0

/-- Placeholder used for the (unreachable) out-of-bounds index of
`a.currentQuestions[a.testTaking.currentQuestion]`; Go would panic there. -/
def defaultQuestion : Question :=
  { ID := 0, TestID := 0, QuestionText := [], QuestionType := [],
    Options := [], CorrectAnswer := [], Explanation := [] }

/-- The `letters` slice `[]string{"A", "B", "C", "D"}` of
`handleMultipleChoice` (`tui/test_taking.go`). -/
def letters : List Str := ["A".toList, "B".toList, "C".toList, "D".toList]

/-! ## PDF-generation configure step (`part_001`) -/

/-- Model of `toggleQuestionTypes` (`part_001` lines 373-389): scan the fixed slice
`{multiple_choice, true_false, short_answer}` in order, disable the first
enabled type and enable the next one cyclically. -/
def toggleQuestionTypes (qt : QuestionTypes) : QuestionTypes :=
  if qt.multiple_choice then
    { qt with multiple_choice := false, true_false := true }
  else if qt.true_false then
    { qt with true_false := false, short_answer := true }
  else if qt.short_answer then
    { qt with short_answer := false, multiple_choice := true }
  else qt

/-- The error message surfaced for an invalid question count. -/
def numQuestionsErr : Str := "Please enter a valid number between 1 and 50".toList

/-- The error message of `validateInput(input, 1)` (`tui/models.go`). -/
def validateInputErr1 : Str := "input must be at least 1 characters long".toList

/-- Model of `handlePDFInputMode` (`part_001` lines 251-290), acting on the
`pdfProcess` sub-model.  On `enter` the pending input is validated and, on
success, committed; in every `enter` case the input mode is exited and the
buffer cleared afterwards. -/
def handlePDFInputMode (m : PDFProcessModel) (msg : Str) : PDFProcessModel :=
  if msg = "enter".toList then
    let m1 :=
      if m.inputMode = "num_questions".toList then
        match atoi (goTrimSpace m.input) with
        | some num =>
            if 0 < num ∧ num ≤ 50 then { m with numQuestions := m.input }
            else { m with errorMsg := numQuestionsErr }
        | none => { m with errorMsg := numQuestionsErr }
      else if m.inputMode = "test_name".toList then
        if goTrimSpace m.input ≠ [] then { m with testName := goTrimSpace m.input }
        else { m with errorMsg := validateInputErr1 }
      else if m.inputMode = "test_desc".toList then
        { m with testDesc := goTrimSpace m.input }
      else m
    { m1 with inputMode := [], input := [] }
  else if msg = "esc".toList then
    { m with inputMode := [], input := [] }
  else if msg = "backspace".toList then
    if m.input ≠ [] then { m with input := m.input.dropLast } else m
  else if msg.length = 1 then
    { m with input := m.input ++ msg }
  else m

/-! ## Custom-question save (`tui/custom_question.go` lines 441-494) -/

/-- The number of option slots with non-blank content, as counted by the
validation loop of `saveCurrentQuestion`. -/
def countValidOptions (options : List Str) : Nat :=
  (options.filter (fun opt => goTrimSpace opt ≠ [])).length

/-- The `QuestionData` record appended by `saveCurrentQuestion` on
success. -/
def savedQuestionData (cq : CurrentQuestion) : QuestionData :=
  { Text := goTrimSpace cq.text, Type' := cq.qType, Options := cq.options,
    CorrectAnswer := goTrimSpace cq.correctAnswer,
    Explanation := goTrimSpace cq.explanation }

/-- Model of `saveCurrentQuestion` (`tui/custom_question.go`): validate the
in-progress question and either surface a validation error or append it to
the in-session list and reset the buffer. -/
def saveCurrentQuestion (m : CustomQuestionModel) : CustomQuestionModel :=
  if goTrimSpace m.currentQuestion.text = [] then
    { m with errorMsg := "Question text is required".toList }
  else if goTrimSpace m.currentQuestion.correctAnswer = [] then
    { m with errorMsg := "Correct answer is required".toList }
  else if m.currentQuestion.qType = "multiple_choice".toList ∧
      countValidOptions m.currentQuestion.options < 2 then
    { m with errorMsg := "Multiple choice questions need at least 2 options".toList }
  else
    let newQuestions := m.questions ++ [savedQuestionData m.currentQuestion]
    { m with
      questions := newQuestions,
      currentQuestion :=
        { m.currentQuestion with
          text := [], correctAnswer := [], explanation := [],
          options :=
            if m.currentQuestion.qType = "multiple_choice".toList then
              List.replicate 4 []
            else [] },
      successMsg := "Question saved! (".toList ++
        Nat.toDigits 10 newQuestions.length ++ " total)".toList,
      cursor := 0 }

/-! ## Test taking (`tui/test_taking.go`) -/

/-- The question currently displayed,
`a.currentQuestions[a.testTaking.currentQuestion]`. -/
def currentQ (a : App) : Question :=
  a.currentQuestions.getD a.testTaking.currentQuestion defaultQuestion

/-- Model of `nextQuestion` (`tui/test_taking.go` lines 266-279): reset the option
cursor, then advance, or flip into the result sub-mode after the last
question. -/
def nextQuestion (a : App) : App :=
  let a1 := { a with testTaking := { a.testTaking with cursor := 0 } }
  if a1.testTaking.currentQuestion < a1.currentQuestions.length - 1 then
    { a1 with testTaking :=
        { a1.testTaking with currentQuestion := a1.testTaking.currentQuestion + 1 } }
  else
    { a1 with testTaking := { a1.testTaking with showResult := true } }

/-- Model of `handleMultipleChoice` (`tui/test_taking.go` lines 172-196). -/
def handleMultipleChoice (a : App) (msg : Str) : App :=
  let q := currentQ a
  if msg = "up".toList ∨ msg = "k".toList then
    if a.testTaking.cursor > 0 then
      { a with testTaking := { a.testTaking with cursor := a.testTaking.cursor - 1 } }
    else a
  else if msg = "down".toList ∨ msg = "j".toList then
    if a.testTaking.cursor < q.Options.length - 1 then
      { a with testTaking := { a.testTaking with cursor := a.testTaking.cursor + 1 } }
    else a
  else if msg = "enter".toList ∨ msg = " ".toList then
    if q.Options.length > a.testTaking.cursor then
      if a.testTaking.cursor < letters.length then
        nextQuestion
          { a with userAnswers :=
              a.userAnswers.insert q.ID (letters.getD a.testTaking.cursor []) }
      else a
    else a
  else a

/-- Model of `handleTrueFalse` (`tui/test_taking.go` lines 198-220). -/
def handleTrueFalse (a : App) (msg : Str) : App :=
  let q := currentQ a
  if msg = "up".toList ∨ msg = "k".toList then
    if a.testTaking.cursor > 0 then
      { a with testTaking := { a.testTaking with cursor := a.testTaking.cursor - 1 } }
    else a
  else if msg = "down".toList ∨ msg = "j".toList then
    if a.testTaking.cursor < 1 then
      { a with testTaking := { a.testTaking with cursor := a.testTaking.cursor + 1 } }
    else a
  else if msg = "enter".toList ∨ msg = " ".toList then
    let answer := if a.testTaking.cursor = 1 then "false".toList else "true".toList
    nextQuestion { a with userAnswers := a.userAnswers.insert q.ID answer }
  else a

/-- Model of `handleShortAnswer` (`tui/test_taking.go` lines 222-246). -/
def handleShortAnswer (a : App) (msg : Str) : App :=
  let q := currentQ a
  if msg = "enter".toList then
    if goTrimSpace a.testTaking.input = [] then
      { a with testTaking :=
          { a.testTaking with errorMsg := "Please enter an answer".toList } }
    else
      nextQuestion
        { a with
          userAnswers := a.userAnswers.insert q.ID (goTrimSpace a.testTaking.input),
          testTaking := { a.testTaking with input := [] } }
  else if msg = "backspace".toList then
    if a.testTaking.input.length > 0 then
      { a with testTaking := { a.testTaking with input := a.testTaking.input.dropLast } }
    else a
  else if msg.length = 1 then
    { a with testTaking := { a.testTaking with input := a.testTaking.input ++ msg } }
  else a

/-- Model of `saveTestResults` (`tui/test_taking.go` lines 368-391): persist the
computed result; on a persistence failure only the error message is set and
the function returns early, otherwise the whole test-taking session state
is reset and the view switches to the main menu. -/
def saveTestResults (env : Env) (a : App) : App :=
  let cs := calculateScore a.currentQuestions a.userAnswers
  let total := a.currentQuestions.length
  if env.saveOk then
    { a with
      db := a.db ++ [{ TestID := currentTestID a, Score := cs.2,
                       TotalQuestions := total, CorrectAnswers := cs.1,
                       TimeTaken := env.timeTakenSeconds }],
      testTaking := NewTestTakingModel,
      currentTest := none,
      currentQuestions := [],
      userAnswers := AnswerMap.empty,
      currentView := MainMenuView }
  else
    { a with testTaking :=
        { a.testTaking with
          errorMsg := "Failed to save results: ".toList ++ env.saveErrMsg } }

/-- Model of `handleAnswerReview` (`tui/test_taking.go` lines 349-365).  Its `esc`
case is unreachable through the top-level `Update`, which intercepts `esc`
first; it is kept for faithfulness. -/
def handleAnswerReview (a : App) (msg : Str) : App :=
  if msg = "left".toList ∨ msg = "h".toList then
    if a.testTaking.reviewQuestion > 0 then
      { a with testTaking :=
          { a.testTaking with reviewQuestion := a.testTaking.reviewQuestion - 1 } }
    else a
  else if msg = "right".toList ∨ msg = "l".toList then
    if a.testTaking.reviewQuestion < a.currentQuestions.length - 1 then
      { a with testTaking :=
          { a.testTaking with reviewQuestion := a.testTaking.reviewQuestion + 1 } }
    else a
  else if msg = "esc".toList then
    { a with testTaking :=
        { a.testTaking with reviewMode := false, reviewQuestion := 0 } }
  else a

/-- Model of `handleResultView` (`tui/test_taking.go` lines 249-264): in the result
sub-mode, `enter` confirms (persist and reset) and `r` enters answer
review. -/
def handleResultView (env : Env) (a : App) (msg : Str) : App :=
  if a.testTaking.reviewMode then handleAnswerReview a msg
  else if msg = "enter".toList then saveTestResults env a
  else if msg = "r".toList then
    { a with testTaking :=
        { a.testTaking with reviewMode := true, reviewQuestion := 0 } }
  else a

/-- Model of `updateTestTaking` (`tui/test_taking.go` lines 33-57). -/
def updateTestTaking (env : Env) (a : App) (msg : Str) : App :=
  if a.currentQuestions = [] then { a with currentView := MainMenuView }
  else if a.testTaking.showResult then handleResultView env a msg
  else if (currentQ a).QuestionType = "multiple_choice".toList then
    handleMultipleChoice a msg
  else if (currentQ a).QuestionType = "true_false".toList then
    handleTrueFalse a msg
  else if (currentQ a).QuestionType = "short_answer".toList then
    handleShortAnswer a msg
  else a

/-! ## Main menu (`part_001`) -/

/-- Model of `handleMainMenuSelection` (`part_001`): dispatch on the cursor; the
second component is the `tea.Quit` flag. -/
def handleMainMenuSelection (a : App) : App × Bool :=
  if a.mainMenu.cursor = 0 then
    ({ a with currentView := FileSelectionView,
              fileSelection := { a.fileSelection with purpose := "pdf_generation".toList } },
     false)
  else if a.mainMenu.cursor = 1 then
    ({ a with currentView := CustomQuestionView }, false)
  else if a.mainMenu.cursor = 2 then
    ({ a with currentView := TestSelectionView,
              testSelection := { a.testSelection with purpose := "take_test".toList } },
     false)
  else if a.mainMenu.cursor = 3 then
    ({ a with currentView := TestSelectionView,
              testSelection := { a.testSelection with purpose := "view_tests".toList } },
     false)
  else if a.mainMenu.cursor = 4 then (a, true)
  else (a, false)

/-- Model of `updateMainMenu` (`part_001`). -/
def updateMainMenu (a : App) (msg : Str) : App × Bool :=
  if msg = "q".toList then (a, true)
  else if msg = "up".toList ∨ msg = "k".toList then
    if a.mainMenu.cursor > 0 then
      ({ a with mainMenu := { a.mainMenu with cursor := a.mainMenu.cursor - 1 } }, false)
    else (a, false)
  else if msg = "down".toList ∨ msg = "j".toList then
    if a.mainMenu.cursor < mainMenuChoices.length - 1 then
      ({ a with mainMenu := { a.mainMenu with cursor := a.mainMenu.cursor + 1 } }, false)
    else (a, false)
  else if msg = "enter".toList ∨ msg = " ".toList then
    handleMainMenuSelection a
  else (a, false)

/-! ## Top-level dispatch (`Update`, `tui/models.go` lines 90-127) -/

/-- Model of `(a *App) Update`, restricted to key events.  `ctrl+c` quits; `esc`
from any non-main-menu view switches directly back to the main menu before
any per-screen handler runs; otherwise the event is routed to the active
screen's handler.  The handlers of the screens that are not embedded here
(PDF process, custom question, test selection, test results, file
selection, question generation) are abstracted by the `others` parameter;
the escape pre-filter fires before any of them can run. -/
def App.update (others : App → Str → App × Bool) (env : Env) (a : App)
    (msg : Str) : App × Bool :=
  if msg = "ctrl+c".toList then (a, true)
  else if msg = "esc".toList ∧ a.currentView ≠ MainMenuView then
    ({ a with currentView := MainMenuView }, false)
  else
    match a.currentView with
    | MainMenuView => updateMainMenu a msg
    | TestTakingView => (updateTestTaking env a msg, false)
    | _ => others a msg

/-! ## Text summary (`GetTextSummary`, pdf package, `part_000` lines 84-100) -/

/-- The break characters of the `GetTextSummary` scan. -/
def isSummaryBreakChar (c : Char) : Bool :=
  c = ' ' ∨ c = '.' ∨ c = '\n'

/-- The scan `for i := maxLength; i > maxLength-50 && i > 0; i--` of
`GetTextSummary`, returning the first (largest) scanned index whose
character is a break character, and `maxLength` when the scan ends without
a hit.  In `Nat` arithmetic `maxLength - 50 < i` is equivalent to Go's
`i > maxLength-50 && i > 0` over `int`.  The scanned index is always in
bounds at every call site (`i ≤ maxLength < len(text)`); the `getD`
default is never read. -/
def findBreakPoint (text : Str) (maxLength : Nat) : Nat → Nat
  | 0 => maxLength
  | i + 1 =>
      if maxLength - 50 < i + 1 then
        if isSummaryBreakChar (text.getD (i + 1) 'a') then i + 1
        else findBreakPoint text maxLength i
      else maxLength

/-- Model of `GetTextSummary` (`part_000`): return the text unchanged when it fits,
otherwise truncate at the found break point and append an ellipsis. -/
def GetTextSummary (text : Str) (maxLength : Nat) : Str :=
  if text.length ≤ maxLength then text
  else text.take (findBreakPoint text maxLength maxLength) ++ "...".toList

/-! ## Question options JSON round trip (`part_003`)

`CreateQuestion` serialises the options slice by plain string
concatenation `"[\"" + o0 + "\",\"" + o1 + ... + "\"]"`, with no escaping.
`GetQuestion` / `GetQuestionsByTestID` read the stored text back with
`encoding/json.Unmarshal` into `[]string` and silently fall back to an
empty slice when the parse fails.  `json.Unmarshal` is modelled by a JSON
parser for arrays of strings: it accepts the standard grammar (whitespace,
`[`, `"`-delimited strings with the escape sequences `\" \\ \/ \b \f \n \r
\t \uXXXX`, `,` separators, `]`, trailing whitespace only) and rejects raw
control characters below U+0020 inside string literals, exactly as Go
does.  Unicode surrogate-pair combination for `\u` escapes is not
modelled; no theorem below exercises `\u` escapes. -/

/-- The serialisation loop of `CreateQuestion` after the first option: each
option's content is followed by a closing quote, each further option by the
separator `","` and its content, and the list is closed with `]`. -/
def optionsAfter : List Str → Str
  | [] => [']']
  | o :: rest => ',' :: '"' :: (o ++ '"' :: optionsAfter rest)

/-- The `optionsJSON` string built by `CreateQuestion` (`part_003` lines
182-191): empty for an empty slice, otherwise the unescaped concatenation
`"[\"" + o0 + "\",\"" + o1 + ... + "\"]"`. -/
def optionsToJSON : List Str → Str
  | [] => []
  | o :: rest => '[' :: '"' :: (o ++ '"' :: optionsAfter rest)

/-- JSON insignificant whitespace. -/
def isJSONWhitespace (c : Char) : Bool :=
  c = ' ' ∨ c = '\t' ∨ c = '\n' ∨ c = '\r'

/-- Skip insignificant whitespace. -/
def skipJSONWhitespace : Str → Str
  | [] => []
  | c :: rest =>
      if isJSONWhitespace c then skipJSONWhitespace rest else c :: rest

/-- Single-character JSON escape sequences. -/
def jsonSimpleEscape (c : Char) : Option Char :=
  if c = '"' then some '"'
  else if c = '\\' then some '\\'
  else if c = '/' then some '/'
  else if c = 'b' then some (Char.ofNat 8)
  else if c = 'f' then some (Char.ofNat 12)
  else if c = 'n' then some '\n'
  else if c = 'r' then some '\r'
  else if c = 't' then some '\t'
  else none

/-- Value of a hexadecimal digit. -/
def hexDigitValue (c : Char) : Option Nat :=
  if c.isDigit then some (c.toNat - 48)
  else if 'a' ≤ c ∧ c ≤ 'f' then some (c.toNat - 97 + 10)
  else if 'A' ≤ c ∧ c ≤ 'F' then some (c.toNat - 65 + 10)
  else none

/-- Parse the body of a JSON string literal (after the opening quote),
returning the decoded string and the rest of the input.  Raw control
characters below U+0020 are a syntax error, as in Go's `encoding/json`. -/
def parseJSONString : Str → Option (Str × Str)
  | [] => none
  | c :: rest =>
      if c = '"' then some ([], rest)
      else if c = '\\' then
        match rest with
        | [] => none
        | e :: rest2 =>
            if e = 'u' then
              match rest2 with
              | h1 :: h2 :: h3 :: h4 :: rest3 =>
                  match hexDigitValue h1, hexDigitValue h2,
                        hexDigitValue h3, hexDigitValue h4 with
                  | some v1, some v2, some v3, some v4 =>
                      (parseJSONString rest3).map
                        (fun p =>
                          (Char.ofNat (((v1 * 16 + v2) * 16 + v3) * 16 + v4) :: p.1,
                           p.2))
                  | _, _, _, _ => none
              | _ => none
            else
              match jsonSimpleEscape e with
              | some d => (parseJSONString rest2).map (fun p => (d :: p.1, p.2))
              | none => none
      else if c.toNat < 32 then none
      else (parseJSONString rest).map (fun p => (c :: p.1, p.2))

/-- Parse the continuation of a JSON string array after one element has
been read: either `]` or a `,`-separated further string element.  The fuel
bounds the number of elements; callers pass at least the input length. -/
def parseJSONArrayRest : Nat → Str → Option (List Str × Str)
  | 0, _ => none
  | fuel + 1, s =>
      match skipJSONWhitespace s with
      | ']' :: r => some ([], r)
      | ',' :: r =>
          match skipJSONWhitespace r with
          | '"' :: r2 =>
              match parseJSONString r2 with
              | some (str, r3) =>
                  match parseJSONArrayRest fuel r3 with
                  | some (strs, r4) => some (str :: strs, r4)
                  | none => none
              | none => none
          | _ => none
      | _ => none

/-- Model of `json.Unmarshal(data, &options)` for `options : []string`:
`some` is a successful parse of the whole input (up to trailing
whitespace), `none` a non-nil error. -/
def parseJSONStringArray (s : Str) : Option (List Str) :=
  match skipJSONWhitespace s with
  | '[' :: r =>
      match skipJSONWhitespace r with
      | ']' :: r2 => if skipJSONWhitespace r2 = [] then some [] else none
      | '"' :: r2 =>
          match parseJSONString r2 with
          | some (str, r3) =>
              match parseJSONArrayRest (r3.length + 1) r3 with
              | some (strs, r4) =>
                  if skipJSONWhitespace r4 = [] then some (str :: strs) else none
              | none => none
          | none => none
      | _ => none
  | _ => none

/-- The options slice produced when `GetQuestion` (or
`GetQuestionsByTestID`) reads a question row back (`part_003` lines
219-225): an empty stored string is skipped (options stay nil), and a
failed JSON parse silently yields an empty slice. -/
def readBackOptions (optionsJSON : Str) : List Str :=
  if optionsJSON = [] then []
  else
    match parseJSONStringArray optionsJSON with
    | some opts => opts
    | none => []

/-! ## Derived predicates used by the statements -/

/-- Exactly one of the three question-type flags is enabled. -/
def exactlyOneEnabled (qt : QuestionTypes) : Bool :=
  (if qt.multiple_choice then 1 else 0) + (if qt.true_false then 1 else 0) +
    (if qt.short_answer then 1 else 0) = 1

/-- Characters that pass through both the unescaped serialisation of
`CreateQuestion` and a JSON string literal unchanged: not a quote, not a
backslash, not a control character below U+0020. -/
def jsonPlainChar (c : Char) : Bool :=
  c ≠ '"' ∧ c ≠ '\\' ∧ 32 ≤ c.toNat

/-! ## Concrete instances used by counterexamples and witnesses -/

/-- Four-question short-answer test of the scoring scenario: questions 1-3
will be answered correctly, question 4 left unanswered. -/
def c2Questions : List Question :=
  [{ ID := 1, TestID := 7, QuestionText := "Capital of France?".toList,
     QuestionType := "short_answer".toList, Options := [],
     CorrectAnswer := "Paris".toList, Explanation := [] },
   { ID := 2, TestID := 7, QuestionText := "Year of the French Revolution?".toList,
     QuestionType := "short_answer".toList, Options := [],
     CorrectAnswer := "1789".toList, Explanation := [] },
   { ID := 3, TestID := 7, QuestionText := "Paris is in France.".toList,
     QuestionType := "true_false".toList, Options := [],
     CorrectAnswer := "true".toList, Explanation := [] },
   { ID := 4, TestID := 7, QuestionText := "Capital of Italy?".toList,
     QuestionType := "short_answer".toList, Options := [],
     CorrectAnswer := "Rome".toList, Explanation := [] }]

/-- Answers for `c2Questions`: ids 1-3 answered correctly, id 4 absent. -/
def c2Answers : AnswerMap :=
  ((AnswerMap.empty.insert 1 "Paris".toList).insert 2 "1789".toList).insert 3
    "true".toList

/-- A multiple-choice question whose stored correct answer is the
lower-case letter `a` (as a custom question's free-text correct answer can
be). -/
def c3Question : Question :=
  { ID := 1, TestID := 7, QuestionText := "Pick the first option.".toList,
    QuestionType := "multiple_choice".toList,
    Options := ["Red".toList, "Blue".toList], CorrectAnswer := "a".toList,
    Explanation := [] }

/-- Recorded answer for `c3Question`: the upper-case letter `A`, exactly as
`handleMultipleChoice` stores it for cursor position 0. -/
def c3Answers : AnswerMap := AnswerMap.empty.insert 1 "A".toList

/-- Session state in the test-taking result sub-mode: one question,
answered, result shown, confirmation pending. -/
def c1App : App :=
  { currentView := TestTakingView,
    mainMenu := { cursor := 0 },
    pdfProcess := NewPDFProcessModel,
    customQuestion :=
      { questions := [],
        currentQuestion :=
          { text := [], qType := "multiple_choice".toList,
            options := List.replicate 4 [], correctAnswer := [],
            explanation := [] },
        errorMsg := [], successMsg := [], cursor := 0 },
    testTaking := { NewTestTakingModel with showResult := true },
    fileSelection := { purpose := [] },
    testSelection := { purpose := [] },
    currentTest := some { ID := 7, Name := "Sample".toList, Description := [] },
    currentQuestions := [c3Question],
    userAnswers := c3Answers,
    db := [] }

/-- Environment in which `db.SaveTestResult` fails. -/
def c1EnvFail : Env :=
  { saveOk := false, saveErrMsg := "disk full".toList, timeTakenSeconds := 30 }

/-- Environment in which `db.SaveTestResult` succeeds. -/
def c1EnvOk : Env :=
  { saveOk := true, saveErrMsg := [], timeTakenSeconds := 30 }

/-- Configure-step state with a pending out-of-range question count. -/
def c6Model : PDFProcessModel :=
  { NewPDFProcessModel with
    inputMode := "num_questions".toList, input := "99".toList }

/-- A valid in-progress multiple-choice custom question with two non-blank
option slots. -/
def c8AcceptModel : CustomQuestionModel :=
  { questions := [],
    currentQuestion :=
      { text := "Pick the first option.".toList,
        qType := "multiple_choice".toList,
        options := ["Red".toList, "Blue".toList, [], []],
        correctAnswer := "A".toList, explanation := [] },
    errorMsg := [], successMsg := [], cursor := 2 }

/-- The same in-progress question with only one non-blank option slot. -/
def c8RejectModel : CustomQuestionModel :=
  { c8AcceptModel with
    currentQuestion :=
      { c8AcceptModel.currentQuestion with
        options := ["Red".toList, "   ".toList, [], []] } }

/-- A text whose only space/period/newline, position 0, falls outside the
scanned window of `GetTextSummary` for `maxLength = 10`. -/
def c9Text : Str := " bcdefghijkl".toList

/-- A text with a space boundary (position 11) inside the scanned window
for `maxLength = 15`. -/
def c9TextFound : Str := "hello world this is a long text".toList

/-- A single option containing a raw newline: free of quotes and
backslashes, yet its serialisation is not valid JSON. -/
def c10Opts : List Str := [['a', '\n', 'b']]

/-- Two plain options that survive the JSON round trip. -/
def c10GoodOpts : List Str := ["Paris".toList, "London".toList]

/-- Claim C2: for every question list and answer map, the computed score
equals correct/total x 100 exactly when total > 0 and equals 0 when
total = 0 (both projections of `calculateScore`), a question whose id is
absent from the answer map counts as not correct, and the concrete
4-question scenario with 3 correct answers and 1 unanswered question
yields correct = 3, total = 4, score = 75. -/
theorem claim_C2_score_formula (qs : List Question) (ans : AnswerMap) :
    ((calculateScore qs ans).2 =
      if 0 < qs.length then
        ((calculateScore qs ans).1 : ℚ) / (qs.length : ℚ) * 100
      else 0) ∧
    (∀ q : Question, ans q.ID = none → answerCorrect ans q = false) ∧
    c2Questions.length = 4 ∧
    calculateScore c2Questions c2Answers = (3, 75) := by
  refine ⟨rfl, ?_, by decide, ?_⟩
  · intro q h
    simp [answerCorrect, h]
  · have h : countCorrect c2Questions c2Answers = 3 := by decide
    unfold calculateScore
    rw [h]
    norm_num [c2Questions]

/-- Witness for C2: at the concrete scenario, the unanswered question 4 is
not counted correct and the score comes out as 3 of 4, i.e. 75. -/
theorem claim_C2_score_formula_witness :
    answerCorrect c2Answers (c2Questions.getD 3 defaultQuestion) = false ∧
    calculateScore c2Questions c2Answers = (3, 75) :=
  ⟨(claim_C2_score_formula c2Questions c2Answers).2.1 _ (by decide),
   (claim_C2_score_formula c2Questions c2Answers).2.2.2⟩

/-- Claim C7: grade thresholds are closed lower bounds, and the boundary
values 90 and 80 map to the higher grade. -/
theorem claim_C7_grade_thresholds (p : ℚ) :
    (90 ≤ p → getGrade p = "A".toList) ∧
    (80 ≤ p → p < 90 → getGrade p = "B".toList) ∧
    (70 ≤ p → p < 80 → getGrade p = "C".toList) ∧
    (60 ≤ p → p < 70 → getGrade p = "D".toList) ∧
    (p < 60 → getGrade p = "F".toList) ∧
    getGrade 90 = "A".toList ∧ getGrade 80 = "B".toList := by
  refine ⟨?_, ?_, ?_, ?_, ?_, by decide, by decide⟩
  · intro h
    simp [getGrade, h]
  · intro h1 h2
    simp [getGrade, h1, not_le.mpr h2]
  · intro h1 h2
    have h90 : ¬90 ≤ p := not_le.mpr (h2.trans_le (by norm_num))
    simp [getGrade, h1, h90, not_le.mpr h2]
  · intro h1 h2
    have h90 : ¬90 ≤ p := not_le.mpr (h2.trans_le (by norm_num))
    have h80 : ¬80 ≤ p := not_le.mpr (h2.trans_le (by norm_num))
    simp [getGrade, h1, h80, h90, not_le.mpr h2]
  · intro h
    have h90 : ¬90 ≤ p := not_le.mpr (h.trans_le (by norm_num))
    have h80 : ¬80 ≤ p := not_le.mpr (h.trans_le (by norm_num))
    have h70 : ¬70 ≤ p := not_le.mpr (h.trans_le (by norm_num))
    simp [getGrade, h90, h80, h70, not_le.mpr h]

/-- Witness for C7: grades at 95 and 85. -/
theorem claim_C7_grade_thresholds_witness :
    getGrade 95 = "A".toList ∧ getGrade 85 = "B".toList :=
  ⟨(claim_C7_grade_thresholds 95).1 (by norm_num),
   (claim_C7_grade_thresholds 85).2.1 (by norm_num) (by norm_num)⟩

/-- Counterexample to C3: for a multiple-choice question whose stored
correct answer is the lower-case letter a, the recorded letter A is not an
exact match, yet `calculateScore` counts the answer as correct (1 of 1,
score 100): the scoring comparison for multiple_choice is not an exact
letter match. -/
theorem claim_C3_counterexample :
    c3Question.QuestionType = "multiple_choice".toList ∧
    c3Answers c3Question.ID = some "A".toList ∧
    "A".toList ≠ c3Question.CorrectAnswer ∧
    calculateScore [c3Question] c3Answers = (1, 100) := by
  refine ⟨by decide, by decide, by decide, ?_⟩
  have h : countCorrect [c3Question] c3Answers = 1 := by decide
  unfold calculateScore
  rw [h]
  norm_num

/-- Claim C3, amended: the scoring comparison of `calculateScore` is
case-insensitive with whitespace trimming on both sides for every question
type alike - it never inspects the question type - and only when both the
recorded answer and the stored correct answer are upper-case letters A-D
does it coincide with exact letter match. -/
theorem claim_C3_amended :
    (∀ (ans : AnswerMap) (q : Question) (t : Str),
      answerCorrect ans { q with QuestionType := t } = answerCorrect ans q) ∧
    (∀ (ans : AnswerMap) (q : Question) (ua : Str), ans q.ID = some ua →
      (answerCorrect ans q = true ↔
        goToLower (goTrimSpace q.CorrectAnswer) = goToLower (goTrimSpace ua))) ∧
    (∀ (ans : AnswerMap) (q : Question) (ua : Str), ans q.ID = some ua →
      ua ∈ letters → q.CorrectAnswer ∈ letters →
      (answerCorrect ans q = true ↔ ua = q.CorrectAnswer)) := by
  refine ⟨fun ans q t => rfl, ?_, ?_⟩
  · intro ans q ua h
    simp [answerCorrect, h]
  · intro ans q ua h hua hca
    simp only [answerCorrect, h, decide_eq_true_eq]
    simp only [letters, List.mem_cons, List.not_mem_nil, or_false] at hua hca
    rcases hua with rfl | rfl | rfl | rfl <;>
      rcases hca with hca | hca | hca | hca <;> rw [hca] <;> decide

/-- Witness for C3 (amended): concrete applications - the comparison for a
multiple-choice question with correct answer a counts the recorded A, and
for upper-case letters it coincides with equality. -/
theorem claim_C3_amended_witness :
    (answerCorrect c3Answers c3Question = true ↔
      goToLower (goTrimSpace c3Question.CorrectAnswer) =
        goToLower (goTrimSpace "A".toList)) ∧
    (answerCorrect (AnswerMap.empty.insert 1 "B".toList)
        { c3Question with CorrectAnswer := "A".toList } = true ↔
      "B".toList = "A".toList) :=
  ⟨claim_C3_amended.2.1 c3Answers c3Question "A".toList (by decide),
   claim_C3_amended.2.2 (AnswerMap.empty.insert 1 "B".toList)
     { c3Question with CorrectAnswer := "A".toList } "B".toList (by decide)
     (by decide) (by decide)⟩

/-- Claim C4: starting from the default configuration (only
multiple_choice enabled), toggling cycles deterministically
multiple_choice to true_false to short_answer and back, exactly one type
is enabled after every sequence of toggles, and three toggles return to
the initial state. -/
theorem claim_C4_toggle_cycle :
    NewPDFProcessModel.questionTypes =
      { multiple_choice := true, true_false := false, short_answer := false } ∧
    toggleQuestionTypes
        { multiple_choice := true, true_false := false, short_answer := false } =
      { multiple_choice := false, true_false := true, short_answer := false } ∧
    toggleQuestionTypes
        { multiple_choice := false, true_false := true, short_answer := false } =
      { multiple_choice := false, true_false := false, short_answer := true } ∧
    toggleQuestionTypes
        { multiple_choice := false, true_false := false, short_answer := true } =
      { multiple_choice := true, true_false := false, short_answer := false } ∧
    (∀ n : Nat,
      exactlyOneEnabled
        (toggleQuestionTypes^[n] NewPDFProcessModel.questionTypes) = true) ∧
    toggleQuestionTypes^[3] NewPDFProcessModel.questionTypes =
      NewPDFProcessModel.questionTypes := by
  refine ⟨by decide, by decide, by decide, by decide, ?_, by decide⟩
  intro n
  induction n with
  | zero => decide
  | succ n ih =>
      rw [Function.iterate_succ_apply']
      revert ih
      generalize toggleQuestionTypes^[n] NewPDFProcessModel.questionTypes = qt
      rcases qt with ⟨mc, tf, sa⟩
      cases mc <;> cases tf <;> cases sa <;> decide

/-- Claim C5: for every application state, processing an escape key event
ends with the main menu as the current view - in particular it transitions
to MainMenu from every non-MainMenu state (whatever sub-state or input
mode its sub-model is in, and whatever the handlers of the non-embedded
screens do), and never transitions anywhere else. -/
theorem claim_C5_escape_to_main_menu
    (others : App → Str → App × Bool) (env : Env) (a : App) :
    ((App.update others env a "esc".toList).1).currentView = MainMenuView := by
  unfold App.update
  rw [if_neg (by decide : ¬("esc".toList = "ctrl+c".toList))]
  by_cases h : a.currentView = MainMenuView
  · rw [if_neg (fun hc => hc.2 h)]
    simp only [h]
    have hq : ¬("esc".toList = "q".toList) := by decide
    have hup : ¬("esc".toList = "up".toList ∨ "esc".toList = "k".toList) := by decide
    have hdn : ¬("esc".toList = "down".toList ∨ "esc".toList = "j".toList) := by decide
    have hen : ¬("esc".toList = "enter".toList ∨ "esc".toList = " ".toList) := by decide
    simp [updateMainMenu, hq, hup, hdn, hen, h]
  · rw [if_pos ⟨rfl, h⟩]

/-- Claim C8: saving an in-progress multiple-choice custom question with
non-blank text and non-blank correct answer is rejected with a validation
error when at most 1 of its 4 option slots is non-blank after trimming,
and appended to the in-session question list when at least 2 are
non-blank. -/
theorem claim_C8_mc_option_validation (m : CustomQuestionModel)
    (hmc : m.currentQuestion.qType = "multiple_choice".toList)
    (htext : goTrimSpace m.currentQuestion.text ≠ [])
    (hans : goTrimSpace m.currentQuestion.correctAnswer ≠ [])
    (_hlen : m.currentQuestion.options.length = 4) :
    (countValidOptions m.currentQuestion.options ≤ 1 →
      (saveCurrentQuestion m).errorMsg =
        "Multiple choice questions need at least 2 options".toList ∧
      (saveCurrentQuestion m).questions = m.questions) ∧
    (2 ≤ countValidOptions m.currentQuestion.options →
      (saveCurrentQuestion m).questions =
        m.questions ++ [savedQuestionData m.currentQuestion] ∧
      (saveCurrentQuestion m).errorMsg = m.errorMsg) := by
  unfold saveCurrentQuestion
  rw [if_neg htext, if_neg hans]
  constructor
  · intro hc
    rw [if_pos ⟨hmc, by omega⟩]
    exact ⟨rfl, rfl⟩
  · intro hc
    rw [if_neg (fun hcon => by omega)]
    exact ⟨rfl, rfl⟩

/-- Witness for C8: the rejected one-option state and the accepted
two-option state. -/
theorem claim_C8_mc_option_validation_witness :
    ((saveCurrentQuestion c8RejectModel).errorMsg =
        "Multiple choice questions need at least 2 options".toList ∧
      (saveCurrentQuestion c8RejectModel).questions = c8RejectModel.questions) ∧
    ((saveCurrentQuestion c8AcceptModel).questions =
        c8AcceptModel.questions ++ [savedQuestionData c8AcceptModel.currentQuestion] ∧
      (saveCurrentQuestion c8AcceptModel).errorMsg = c8AcceptModel.errorMsg) :=
  ⟨(claim_C8_mc_option_validation c8RejectModel (by decide) (by decide)
      (by decide) (by decide)).1 (by decide),
   (claim_C8_mc_option_validation c8AcceptModel (by decide) (by decide)
      (by decide) (by decide)).2 (by decide)⟩

/-- Counterexample to C6: with the default count 5 stored and the pending
entry 99, confirming surfaces the validation error and leaves the stored
count unchanged, but the input is not retained for correction - the input
mode is exited and the buffer is cleared. -/
theorem claim_C6_counterexample :
    c6Model.input = "99".toList ∧
    (handlePDFInputMode c6Model "enter".toList).errorMsg = numQuestionsErr ∧
    (handlePDFInputMode c6Model "enter".toList).numQuestions = "5".toList ∧
    (handlePDFInputMode c6Model "enter".toList).input = [] ∧
    (handlePDFInputMode c6Model "enter".toList).inputMode = [] := by
  decide

/-- Claim C6, amended: confirming the number-of-questions input accepts
the entered value exactly when it parses (after trimming) as an integer in
[1,50], replacing the stored count; otherwise the validation error message
is surfaced and the stored count is unchanged.  In both cases the input
mode is exited and the input buffer is cleared (the entry is not retained
for correction). -/
theorem claim_C6_amended (m : PDFProcessModel)
    (hmode : m.inputMode = "num_questions".toList) :
    (∀ n : Int, atoi (goTrimSpace m.input) = some n → 0 < n → n ≤ 50 →
      handlePDFInputMode m "enter".toList =
        { m with numQuestions := m.input, inputMode := [], input := [] }) ∧
    ((∀ n : Int, atoi (goTrimSpace m.input) = some n → ¬(0 < n ∧ n ≤ 50)) →
      handlePDFInputMode m "enter".toList =
        { m with errorMsg := numQuestionsErr, inputMode := [], input := [] }) := by
  unfold handlePDFInputMode
  rw [if_pos rfl, if_pos hmode]
  constructor
  · intro n hn h1 h2
    simp only [hn]
    rw [if_pos ⟨h1, h2⟩]
  · intro hno
    cases hA : atoi (goTrimSpace m.input) with
    | none => simp only [hA]
    | some n =>
        simp only [hA]
        rw [if_neg (hno n hA)]

/-- Witness for C6 (amended): the accepted entry 42 and the rejected
entry 99, both from input mode. -/
theorem claim_C6_amended_witness :
    handlePDFInputMode { c6Model with input := "42".toList } "enter".toList =
      { c6Model with input := [], inputMode := [], numQuestions := "42".toList } ∧
    handlePDFInputMode c6Model "enter".toList =
      { c6Model with input := [], inputMode := [], errorMsg := numQuestionsErr } := by
  constructor
  · have h := (claim_C6_amended { c6Model with input := "42".toList }
      (by decide)).1 42 (by decide) (by decide) (by decide)
    rw [h]
  · have h := (claim_C6_amended c6Model (by decide)).2
      (fun n hn => by simp [show n = 99 by
        have : atoi (goTrimSpace c6Model.input) = some 99 := by decide
        rw [this] at hn; injection hn; omega])
    rw [h]

/-- Counterexample to C1: in the result sub-mode with a failing
persistence call, confirming does not reset the session state and does not
transition to MainMenu - the view stays on test taking, the answer map and
question list are intact, and only the error message is set. -/
theorem claim_C1_counterexample :
    (updateTestTaking c1EnvFail c1App "enter".toList).currentView =
      TestTakingView ∧
    (updateTestTaking c1EnvFail c1App "enter".toList).currentView ≠
      MainMenuView ∧
    (updateTestTaking c1EnvFail c1App "enter".toList).userAnswers 1 =
      some "A".toList ∧
    (updateTestTaking c1EnvFail c1App "enter".toList).currentQuestions =
      [c3Question] ∧
    (updateTestTaking c1EnvFail c1App "enter".toList).currentTest = some
      { ID := 7, Name := "Sample".toList, Description := [] } ∧
    (updateTestTaking c1EnvFail c1App "enter".toList).testTaking.errorMsg =
      "Failed to save results: disk full".toList := by
  refine ⟨by decide, by decide, ?_, by decide, by decide, by decide⟩
  decide

/-- Claim C1, amended: in the result sub-mode, confirming calls
`saveTestResults`.  When persistence succeeds, the computed result record
is appended to the store, the whole test-taking session state (test-taking
model, current test, current questions, answer map) is reset and the view
switches to MainMenu.  When persistence fails, only the error message is
set: the view, the sub-model flags and the session state are all left
unchanged, so the state is not reset and no transition happens. -/
theorem claim_C1_amended (env : Env) (a : App) :
    (a.testTaking.showResult = true → a.testTaking.reviewMode = false →
      a.currentQuestions ≠ [] →
      updateTestTaking env a "enter".toList = saveTestResults env a) ∧
    (env.saveOk = true →
      (saveTestResults env a).currentView = MainMenuView ∧
      (saveTestResults env a).testTaking = NewTestTakingModel ∧
      (saveTestResults env a).currentTest = none ∧
      (saveTestResults env a).currentQuestions = [] ∧
      (saveTestResults env a).userAnswers = AnswerMap.empty ∧
      (saveTestResults env a).db = a.db ++
        [{ TestID := currentTestID a,
           Score := (calculateScore a.currentQuestions a.userAnswers).2,
           TotalQuestions := a.currentQuestions.length,
           CorrectAnswers := (calculateScore a.currentQuestions a.userAnswers).1,
           TimeTaken := env.timeTakenSeconds }]) ∧
    (env.saveOk = false →
      (saveTestResults env a).currentView = a.currentView ∧
      (saveTestResults env a).testTaking.errorMsg =
        "Failed to save results: ".toList ++ env.saveErrMsg ∧
      (saveTestResults env a).testTaking.showResult = a.testTaking.showResult ∧
      (saveTestResults env a).currentTest = a.currentTest ∧
      (saveTestResults env a).currentQuestions = a.currentQuestions ∧
      (saveTestResults env a).userAnswers = a.userAnswers ∧
      (saveTestResults env a).db = a.db) := by
  refine ⟨?_, ?_, ?_⟩
  · intro hshow hrev hne
    unfold updateTestTaking handleResultView
    rw [if_neg hne, if_pos hshow, hrev]
    simp only [Bool.false_eq_true, if_false, if_true]
  · intro hok
    obtain ⟨saveOk, saveErrMsg, timeTaken⟩ := env
    subst hok
    exact ⟨rfl, rfl, rfl, rfl, rfl, rfl⟩
  · intro hfail
    obtain ⟨saveOk, saveErrMsg, timeTaken⟩ := env
    subst hfail
    exact ⟨rfl, rfl, rfl, rfl, rfl, rfl, rfl⟩

/-- Witness for C1 (amended): at the concrete result-sub-mode state,
confirming with a succeeding save ends on MainMenu, and confirming with a
failing save routes through `saveTestResults` and keeps the current
view. -/
theorem claim_C1_amended_witness :
    (saveTestResults c1EnvOk c1App).currentView = MainMenuView ∧
    updateTestTaking c1EnvFail c1App "enter".toList =
      saveTestResults c1EnvFail c1App ∧
    (saveTestResults c1EnvFail c1App).currentView = c1App.currentView :=
  ⟨((claim_C1_amended c1EnvOk c1App).2.1 rfl).1,
   (claim_C1_amended c1EnvFail c1App).1 rfl rfl (by decide),
   ((claim_C1_amended c1EnvFail c1App).2.2 rfl).1⟩

/-- When no break character occurs at any scanned position, the scan of
`GetTextSummary` falls through and returns `maxLength`. -/
theorem findBreakPoint_no_break (text : Str) (maxLength : Nat) :
    ∀ i, (∀ p, maxLength - 50 < p → p ≤ i →
        isSummaryBreakChar (text.getD p 'a') = false) →
      findBreakPoint text maxLength i = maxLength := by
  intro i
  induction i with
  | zero => intro _; rfl
  | succ i ih =>
      intro h
      unfold findBreakPoint
      by_cases hc : maxLength - 50 < i + 1
      · rw [if_pos hc, h (i + 1) hc le_rfl]
        simp only [Bool.false_eq_true, if_false]
        exact ih (fun p hp hpi => h p hp (hpi.trans (Nat.le_succ i)))
      · rw [if_neg hc]

/-- When some scanned position carries a break character, the scan of
`GetTextSummary` returns the largest such position. -/
theorem findBreakPoint_found (text : Str) (maxLength : Nat) :
    ∀ i p0, maxLength - 50 < p0 → p0 ≤ i →
      isSummaryBreakChar (text.getD p0 'a') = true →
      maxLength - 50 < findBreakPoint text maxLength i ∧
      findBreakPoint text maxLength i ≤ i ∧
      isSummaryBreakChar (text.getD (findBreakPoint text maxLength i) 'a') = true ∧
      ∀ q, maxLength - 50 < q → q ≤ i →
        isSummaryBreakChar (text.getD q 'a') = true →
        q ≤ findBreakPoint text maxLength i := by
  intro i
  induction i with
  | zero => intro p0 hp0 hp0le _; omega
  | succ i ih =>
      intro p0 hp0 hp0le hbr
      have hc : maxLength - 50 < i + 1 := by omega
      unfold findBreakPoint
      rw [if_pos hc]
      by_cases hbt : isSummaryBreakChar (text.getD (i + 1) 'a') = true
      · rw [hbt]
        simp only [if_true]
        exact ⟨hc, le_rfl, hbt, fun q _ hq _ => hq⟩
      · have hbf : isSummaryBreakChar (text.getD (i + 1) 'a') = false :=
          Bool.eq_false_iff.mpr hbt
        rw [hbf]
        simp only [Bool.false_eq_true, if_false]
        have hne : p0 ≠ i + 1 := by
          intro he
          rw [he, hbf] at hbr
          exact Bool.false_ne_true hbr
        obtain ⟨h1, h2, h3, h4⟩ := ih p0 hp0 (by omega) hbr
        refine ⟨h1, h2.trans (Nat.le_succ i), h3, ?_⟩
        intro q hq hqle hqbr
        rcases Nat.eq_or_lt_of_le hqle with he | hlt
        · rw [he, hbf] at hqbr
          exact absurd hqbr Bool.false_ne_true
        · exact h4 q hq (by omega) hqbr

/-- Counterexample to C9: in the 12-character text whose only space is at
position 0, the claim's window for max_length 10 contains the boundary 0
(it is at or below 10 and within 50 characters of it), so the claim
prescribes truncation there; `GetTextSummary` instead truncates exactly at
position 10, because its scan requires positions to be strictly
positive. -/
theorem claim_C9_counterexample :
    c9Text.length = 12 ∧
    isSummaryBreakChar (c9Text.getD 0 'a') = true ∧
    ((List.range 11).filter
      (fun p => 0 < p ∧ isSummaryBreakChar (c9Text.getD p 'a') = true)) = [] ∧
    GetTextSummary c9Text 10 = " bcdefghij...".toList ∧
    GetTextSummary c9Text 10 ≠ c9Text.take 0 ++ "...".toList := by
  decide

/-- Claim C9, amended: text of length at most max_length is returned
unchanged.  For longer text, the truncation position is the nearest (i.e.
largest) position p with max_length - 50 < p <= max_length whose character
is a space, period or newline - positions are scanned only in that window,
which excludes position 0 and anything at distance 50 or more - with an
ellipsis appended; when no such position exists, the text is truncated
exactly at position max_length with an ellipsis appended. -/
theorem claim_C9_amended (text : Str) (maxLength : Nat) :
    (text.length ≤ maxLength → GetTextSummary text maxLength = text) ∧
    (maxLength < text.length →
      ((∃ p, maxLength - 50 < p ∧ p ≤ maxLength ∧
          isSummaryBreakChar (text.getD p 'a') = true) →
        ∃ p, maxLength - 50 < p ∧ p ≤ maxLength ∧
          isSummaryBreakChar (text.getD p 'a') = true ∧
          (∀ q, maxLength - 50 < q → q ≤ maxLength →
            isSummaryBreakChar (text.getD q 'a') = true → q ≤ p) ∧
          GetTextSummary text maxLength = text.take p ++ "...".toList) ∧
      ((∀ p, maxLength - 50 < p → p ≤ maxLength →
          isSummaryBreakChar (text.getD p 'a') = false) →
        GetTextSummary text maxLength = text.take maxLength ++ "...".toList)) := by
  constructor
  · intro h
    unfold GetTextSummary
    rw [if_pos h]
  · intro hlt
    constructor
    · rintro ⟨p0, hp0, hp0le, hbr⟩
      obtain ⟨h1, h2, h3, h4⟩ :=
        findBreakPoint_found text maxLength maxLength p0 hp0 hp0le hbr
      refine ⟨findBreakPoint text maxLength maxLength, h1, h2, h3, h4, ?_⟩
      unfold GetTextSummary
      rw [if_neg (by omega)]
    · intro hnone
      unfold GetTextSummary
      rw [if_neg (by omega),
        findBreakPoint_no_break text maxLength maxLength hnone]

/-- Witness for C9 (amended): a short text is returned unchanged, and the
boundary-free window of the 12-character text forces truncation exactly at
position 10. -/
theorem claim_C9_amended_witness :
    GetTextSummary "short".toList 10 = "short".toList ∧
    GetTextSummary c9Text 10 = c9Text.take 10 ++ "...".toList :=
  ⟨(claim_C9_amended "short".toList 10).1 (by decide),
   ((claim_C9_amended c9Text 10).2 (by decide)).2 (by
     intro p h1 h2
     have h0 : 0 < p := by omega
     interval_cases p <;> decide)⟩

/-- A string of plain characters followed by a closing quote parses back
to itself: no escape is triggered and no control character aborts. -/
theorem parseJSONString_plain (rest : Str) :
    ∀ o : Str, (∀ c ∈ o, jsonPlainChar c = true) →
      parseJSONString (o ++ '"' :: rest) = some (o, rest) := by
  intro o
  induction o with
  | nil =>
      intro _
      show parseJSONString ('"' :: rest) = some ([], rest)
      unfold parseJSONString
      rw [if_pos rfl]
  | cons c o ih =>
      intro h
      have hc := h c (List.mem_cons_self c o)
      simp only [jsonPlainChar, decide_eq_true_eq] at hc
      obtain ⟨h1, h2, h3⟩ := hc
      show parseJSONString (c :: (o ++ '"' :: rest)) = _
      unfold parseJSONString
      rw [if_neg h1, if_neg h2, if_neg (by omega : ¬c.toNat < 32),
        ih (fun d hd => h d (List.mem_cons_of_mem c hd))]
      rfl

/-- The serialised tail is at least as long as the remaining option
list. -/
theorem optionsAfter_length_le (opts : List Str) :
    opts.length ≤ (optionsAfter opts).length := by
  induction opts with
  | nil => simp [optionsAfter]
  | cons o rest ih =>
      simp only [optionsAfter, List.length_cons, List.length_append]
      omega

/-- Parsing the serialised tail of a plain option list yields exactly the
remaining options and consumes the whole input. -/
theorem parseJSONArrayRest_optionsAfter :
    ∀ (opts : List Str) (fuel : Nat), opts.length < fuel →
      (∀ o ∈ opts, ∀ c ∈ o, jsonPlainChar c = true) →
      parseJSONArrayRest fuel (optionsAfter opts) = some (opts, []) := by
  intro opts
  induction opts with
  | nil =>
      intro fuel hf _
      match fuel, hf with
      | fuel + 1, _ => rfl
  | cons o rest ih =>
      intro fuel hf h
      match fuel, hf with
      | fuel + 1, hf =>
        show parseJSONArrayRest (fuel + 1)
            (',' :: '"' :: (o ++ '"' :: optionsAfter rest)) = _
        unfold parseJSONArrayRest
        have hskip : skipJSONWhitespace
            (',' :: '"' :: (o ++ '"' :: optionsAfter rest)) =
            ',' :: '"' :: (o ++ '"' :: optionsAfter rest) := rfl
        rw [hskip]
        have hskip2 : skipJSONWhitespace ('"' :: (o ++ '"' :: optionsAfter rest)) =
            '"' :: (o ++ '"' :: optionsAfter rest) := rfl
        simp only [hskip2]
        rw [parseJSONString_plain (optionsAfter rest) o
          (fun c hc => h o (List.mem_cons_self o rest) c hc)]
        simp only [ih fuel (by simpa using hf)
          (fun o2 ho2 => h o2 (List.mem_cons_of_mem o ho2))]

/-- Claim C10, amended: for every question created with a non-empty
options list in which no option contains a double quote, a backslash, or a
control character below U+0020, reading the question back yields exactly
the same options in the same order.  (The quote/backslash restriction
alone is not enough: a raw control character also breaks the unescaped
serialisation, see the counterexample.) -/
theorem claim_C10_amended (opts : List Str) (hne : opts ≠ [])
    (h : ∀ o ∈ opts, ∀ c ∈ o, c ≠ '"' ∧ c ≠ '\\' ∧ 32 ≤ c.toNat) :
    readBackOptions (optionsToJSON opts) = opts := by
  have hplain : ∀ o ∈ opts, ∀ c ∈ o, jsonPlainChar c = true := by
    intro o ho c hc
    simp only [jsonPlainChar, decide_eq_true_eq]
    exact h o ho c hc
  cases opts with
  | nil => exact absurd rfl hne
  | cons o rest =>
      unfold readBackOptions
      rw [if_neg (by simp [optionsToJSON])]
      have hparse : parseJSONStringArray (optionsToJSON (o :: rest)) =
          some (o :: rest) := by
        show parseJSONStringArray ('[' :: '"' :: (o ++ '"' :: optionsAfter rest)) = _
        unfold parseJSONStringArray
        have hskip : skipJSONWhitespace ('[' :: '"' :: (o ++ '"' :: optionsAfter rest)) =
            '[' :: '"' :: (o ++ '"' :: optionsAfter rest) := rfl
        rw [hskip]
        have hskip2 : skipJSONWhitespace ('"' :: (o ++ '"' :: optionsAfter rest)) =
            '"' :: (o ++ '"' :: optionsAfter rest) := rfl
        simp only [hskip2]
        rw [parseJSONString_plain (optionsAfter rest) o
          (fun c hc => hplain o (List.mem_cons_self o rest) c hc)]
        simp only [parseJSONArrayRest_optionsAfter rest
          ((optionsAfter rest).length + 1)
          (Nat.lt_succ_of_le (optionsAfter_length_le rest))
          (fun o2 ho2 => hplain o2 (List.mem_cons_of_mem o ho2))]
        rfl
      rw [hparse]

/-- Witness for C10 (amended): the two plain options Paris and London
survive the round trip. -/
theorem claim_C10_amended_witness :
    readBackOptions (optionsToJSON c10GoodOpts) = c10GoodOpts :=
  claim_C10_amended c10GoodOpts (by decide) (by decide)

/-- Counterexample to C10: a single option containing a raw newline has no
double quote and no backslash, yet its unescaped serialisation is not
valid JSON (a control character inside a string literal), so reading back
silently yields an empty options list instead of the original one. -/
theorem claim_C10_counterexample :
    c10Opts ≠ [] ∧
    c10Opts.all (fun o => o.all (fun c => decide (c ≠ '"' ∧ c ≠ '\\'))) = true ∧
    readBackOptions (optionsToJSON c10Opts) = [] ∧
    readBackOptions (optionsToJSON c10Opts) ≠ c10Opts := by
  decide
